import Mathlib

/-!
Formal model of the bluejournal client-side persistence and migration core.

The definitions below are a shallow embedding of the TypeScript services:

* `MigrationService` (migration.service.ts): the migration state machine and
  `startMigration`, modelled as a pure function over an explicit state record,
  with a per-note failure oracle standing in for exceptions thrown by the
  underlying IndexedDB (Dexie) `add` calls.
* `IndexedDBService` (indexeddb.service.ts): the `notes` table is a list of
  records; `migrateNotesFromLocalStorage` runs one read-write transaction that
  clears the table and inserts every note, rolling back on any failure
  (Dexie transaction semantics, as the source comment states: all notes are
  added or none).
* `NotesService` (the note repository): CRUD operations over an explicit state
  holding the in-memory cache, the IndexedDB table and the localStorage keyed
  store, instrumented with an event trace (backend write / cache update /
  snapshot publish, in execution order) and the list of snackbar notifications
  raised.

JavaScript `Date` values are modelled as integer timestamps (`getTime`), and
`Date.now()` is passed in as an explicit `now` argument.  JavaScript falsiness
is modelled where the source relies on it (a note id of 0 counts as missing,
an empty string is falsy).
-/

/-- The `Note` interface: `{ id, title, content, categories?, category?,
image?, images?, createdAt }`.  Optional fields are `Option`s; `createdAt`
is the integer timestamp of the stored date. -/
structure Note where
  id : Int
  title : String
  content : String
  categories : Option (List String)
  category : Option String
  image : Option String
  images : Option (List String)
  createdAt : Int
deriving Repr, DecidableEq

/-- Newest-first comparison used by every sort in the code base:
`(a, b) => b.createdAt - a.createdAt` sorts so that an earlier element has the
later (or equal) timestamp. -/
def NoteGe (a b : Note) : Prop := b.createdAt ≤ a.createdAt

instance : DecidableRel NoteGe :=
  fun a b => inferInstanceAs (Decidable (b.createdAt ≤ a.createdAt))

instance : IsTotal Note NoteGe := ⟨fun a b => le_total b.createdAt a.createdAt⟩

instance : IsTrans Note NoteGe := ⟨fun _ _ _ h1 h2 => le_trans h2 h1⟩

/-- The `sort((a, b) => b.createdAt - a.createdAt)` calls: a comparison sort
producing a newest-first permutation of the input. -/
def sortNotesDesc (l : List Note) : List Note := List.insertionSort NoteGe l

theorem sorted_sortNotesDesc (l : List Note) : (sortNotesDesc l).Pairwise NoteGe :=
  List.sorted_insertionSort NoteGe l

/-- The `MigrationStatus` enum of migration.service.ts. -/
inductive MigrationStatus
  | NOT_STARTED
  | IN_PROGRESS
  | COMPLETED
  | FAILED
  | SKIPPED
deriving Repr, DecidableEq

/-- State visible to `MigrationService.startMigration`: the persisted/broadcast
status, the source notes held by `NotesService` (the localStorage-backed
authoritative source the migration reads), the rows of the IndexedDB `notes`
table, and whether `window.indexedDB` exists. -/
structure MigState where
  status : MigrationStatus
  localNotes : List Note
  idbNotes : List Note
  idbAvailable : Bool
deriving Repr, DecidableEq

/-- The sequence of `db.notes.add` calls issued inside the migration
transaction, inserting the notes in order into the cleared table; `fail`
is the failure oracle: `fail n = true` means the `add` of `n` throws
(duplicate key, quota, or any other backend error). -/
def runBulkAdds (fail : Note → Bool) : List Note → Except Unit (List Note)
  | [] => Except.ok []
  | n :: ns =>
    if fail n then Except.error ()
    else (runBulkAdds fail ns).map (fun rest => n :: rest)

/-- `IndexedDBService.migrateNotesFromLocalStorage`: one `rw` transaction that
clears the `notes` table and adds every given note.  On success it returns the
new table contents; on any failure inside the transaction Dexie aborts and
rolls the table back, and the error is rethrown to the caller (which therefore
keeps its pre-transaction table). -/
def migrateNotesFromLocalStorage (fail : Note → Bool) (notes : List Note) :
    Except Unit (List Note) :=
  runBulkAdds fail notes

/-- Result of a `startMigration` call: the boolean the returned promise
resolves with, the final status, the final contents of the source store and of
the IndexedDB table, and whether the bulk-write path
(`migrateNotesFromLocalStorage`) was invoked at all. -/
structure MigResult where
  returned : Bool
  status : MigrationStatus
  localNotes : List Note
  idbNotes : List Note
  bulkInvoked : Bool
deriving Repr, DecidableEq

/-- `MigrationService.startMigration` (migration.service.ts lines 105-168).
Guards: under `IN_PROGRESS` return `false` immediately; under `COMPLETED`
return `true` immediately; if IndexedDB is unavailable set `FAILED` and return
`false`.  Otherwise set `IN_PROGRESS`, read the source notes; with zero notes
set `COMPLETED` and return `true` without touching IndexedDB; else run the
bulk transaction — on success set `COMPLETED` and return `true`, on an
exception the `catch` block sets `FAILED` and returns `false`.  The source
note data is never written. -/
def startMigration (s : MigState) (fail : Note → Bool) : MigResult :=
  if s.status = MigrationStatus.IN_PROGRESS then
    ⟨false, s.status, s.localNotes, s.idbNotes, false⟩
  else if s.status = MigrationStatus.COMPLETED then
    ⟨true, s.status, s.localNotes, s.idbNotes, false⟩
  else if s.idbAvailable = false then
    ⟨false, MigrationStatus.FAILED, s.localNotes, s.idbNotes, false⟩
  else if s.localNotes.length = 0 then
    ⟨true, MigrationStatus.COMPLETED, s.localNotes, s.idbNotes, false⟩
  else
    match migrateNotesFromLocalStorage fail s.localNotes with
    | Except.ok newTable =>
        ⟨true, MigrationStatus.COMPLETED, s.localNotes, newTable, true⟩
    | Except.error _ =>
        ⟨false, MigrationStatus.FAILED, s.localNotes, s.idbNotes, true⟩

/-- `MigrationService.skipMigration`: unconditionally sets `SKIPPED`. -/
def skipMigration (s : MigState) : MigState :=
  { s with status := MigrationStatus.SKIPPED }

/-- `MigrationService.resetMigrationStatus`: unconditionally sets
`NOT_STARTED`. -/
def resetMigrationStatus (s : MigState) : MigState :=
  { s with status := MigrationStatus.NOT_STARTED }

/-- `MigrationService.isMigrationNeeded`: true unless the status is
`COMPLETED` or `SKIPPED`. -/
def isMigrationNeeded (s : MigState) : Bool :=
  !(s.status = MigrationStatus.COMPLETED) && !(s.status = MigrationStatus.SKIPPED)

theorem runBulkAdds_error (fail : Note → Bool) (ns : List Note)
    (h : ns.any fail = true) : runBulkAdds fail ns = Except.error () := by
  induction ns with
  | nil => simp at h
  | cons n ns ih =>
    simp only [List.any_cons, Bool.or_eq_true] at h
    by_cases hn : fail n = true
    · simp [runBulkAdds, hn]
    · simp only [Bool.not_eq_true] at hn
      have hns := h.resolve_left (by simp [hn])
      simp [runBulkAdds, hn, ih hns, Except.map]

/-- An error thrown by a storage backend; `isQuota` is true when the error is
a quota-exceeded error (`QuotaExceededError`, `NS_ERROR_DOM_QUOTA_REACHED`, or
a message mentioning quota). -/
structure StorageErr where
  isQuota : Bool
deriving Repr, DecidableEq

/-- A snackbar message shown by `NotesService.handleStorageError`; the two
constructors stand for the two distinct wordings. -/
inductive Notif
  | quotaWarning
  | genericWarning
deriving Repr, DecidableEq

/-- `NotesService.handleStorageError`: a quota error gets the storage-full
wording, anything else the generic wording. -/
def handleStorageError (e : StorageErr) : Notif :=
  if e.isQuota then Notif.quotaWarning else Notif.genericWarning

/-- Observable events of one repository CRUD call, listed in execution order:
a write issued against the authoritative backend, a mutation of the in-memory
cache, and a publish of the full snapshot to subscribers. -/
inductive Ev
  | backendWrite
  | cacheUpdate
  | publish
deriving Repr, DecidableEq

/-- The localStorage keyed store: the per-note entries (`bluejournal_note_<id>`
keys) and the id index (`bluejournal_note_ids` key). -/
structure LocalStore where
  entries : List (Int × Note)
  ids : List Int
deriving Repr, DecidableEq

/-- `localStorage.setItem` on a per-note key: overwrite the entry for that id
if present, otherwise append it. -/
def setEntry (es : List (Int × Note)) (n : Note) : List (Int × Note) :=
  if es.any (fun p => p.1 = n.id) then
    es.map (fun p => if p.1 = n.id then (n.id, n) else p)
  else es ++ [(n.id, n)]

/-- The localStorage branch of `NotesService.saveNote`: write the per-id
entry, then append the id to the index if missing.  Any storage exception is
caught and only logged, so a failed write leaves the store unchanged and
raises no notification.  (The guard branch of `saveNote` that redirects to
IndexedDB is unreachable from the modelled call sites, which invoke `saveNote`
only when the IndexedDB migration is not complete.) -/
def saveNote (err : Option StorageErr) (st : LocalStore) (n : Note) : LocalStore :=
  match err with
  | some _ => st
  | none =>
    { entries := setEntry st.entries n,
      ids := if st.ids.contains n.id then st.ids else st.ids ++ [n.id] }

/-- The localStorage removal in `NotesService.deleteNote`: `removeItem` on the
per-note key, then rewrite the index without the id; exceptions are caught and
only logged. -/
def deleteLocal (err : Option StorageErr) (st : LocalStore) (i : Int) : LocalStore :=
  match err with
  | some _ => st
  | none =>
    { entries := st.entries.filter (fun p => p.1 ≠ i),
      ids := st.ids.filter (fun j => j ≠ i) }

/-- Repository state: which backend is authoritative for this session
(`idbMigrationComplete`, fixed at initialization), the in-memory cache
(`this.notes`, aliased with the IndexedDB service cache once loaded from it),
the IndexedDB `notes` table, and the localStorage keyed store. -/
structure NSState where
  idbMigrationComplete : Bool
  cache : List Note
  idb : List Note
  store : LocalStore
deriving Repr, DecidableEq

/-- Result of one repository CRUD call: the new state, the event trace in
execution order, and the snackbar notifications raised. -/
structure OpResult where
  state : NSState
  trace : List Ev
  notifs : List Notif
deriving Repr, DecidableEq

/-- `this.notes[index] = noteCopy` after `findIndex`: replace the first
element with the matching id, leave the list unchanged when none matches
(also the semantics of the Dexie `update` call, which does nothing for a
missing key). -/
def replaceFirst (n : Note) : List Note → List Note
  | [] => []
  | m :: ms => if m.id = n.id then n :: ms else m :: replaceFirst n ms

/-- `this.notes.splice(index, 1)` after `findIndex`: remove the first element
with the matching id (also the semantics of the Dexie `delete` call on the
primary key). -/
def removeFirst (i : Int) : List Note → List Note
  | [] => []
  | m :: ms => if m.id = i then ms else m :: removeFirst i ms

/-- `NotesService.addNote` (src/unnamed/part_007 lines 419-468).  `now` stands
for `Date.now()`; an id of 0 models the JS-falsy missing id and is replaced.
On the IndexedDB path the call awaits `IndexedDBService.addNote`, which first
awaits `db.notes.add` and only then unshifts into the (aliased) cache and
publishes; on failure the catch block unshifts into the cache, publishes, and
calls `handleStorageError`.  On the localStorage path the cache is unshifted
and the snapshot published first, and `saveNote` issues the backend write
afterwards without being awaited. -/
def addNote (now : Int) (err : Option StorageErr) (s : NSState) (n0 : Note) :
    OpResult :=
  let n := if n0.id = 0 then { n0 with id := now } else n0
  if s.idbMigrationComplete then
    match err with
    | none =>
      { state := { s with idb := s.idb ++ [n], cache := n :: s.cache },
        trace := [Ev.backendWrite, Ev.cacheUpdate, Ev.publish],
        notifs := [] }
    | some e =>
      { state := { s with cache := n :: s.cache },
        trace := [Ev.backendWrite, Ev.cacheUpdate, Ev.publish],
        notifs := [handleStorageError e] }
  else
    { state := { s with cache := n :: s.cache, store := saveNote err s.store n },
      trace := [Ev.cacheUpdate, Ev.publish, Ev.backendWrite],
      notifs := [] }

/-- `NotesService.updateNote` (src/unnamed/part_007 lines 533-583).  When no
cached note has the given id the call only logs a warning and returns.
Otherwise, on the IndexedDB path it awaits `IndexedDBService.updateNote`
(backend row update, then cache replacement and publish); on failure the
catch block replaces in the cache, publishes, and calls `handleStorageError`.
On the localStorage path the cache is updated and published first, then
`saveNote` issues the backend write. -/
def updateNote (err : Option StorageErr) (s : NSState) (n : Note) : OpResult :=
  if s.cache.any (fun m => m.id = n.id) then
    if s.idbMigrationComplete then
      match err with
      | none =>
        { state := { s with idb := replaceFirst n s.idb,
                            cache := replaceFirst n s.cache },
          trace := [Ev.backendWrite, Ev.cacheUpdate, Ev.publish],
          notifs := [] }
      | some e =>
        { state := { s with cache := replaceFirst n s.cache },
          trace := [Ev.backendWrite, Ev.cacheUpdate, Ev.publish],
          notifs := [handleStorageError e] }
    else
      { state := { s with cache := replaceFirst n s.cache,
                          store := saveNote err s.store n },
        trace := [Ev.cacheUpdate, Ev.publish, Ev.backendWrite],
        notifs := [] }
  else
    { state := s, trace := [], notifs := [] }

/-- `NotesService.deleteNote` (src/unnamed/part_007 lines 588-636).  When no
cached note has the id the call does nothing.  On the IndexedDB path it awaits
`IndexedDBService.deleteNote` (backend delete, then cache splice and publish);
on failure the catch block splices the cache and publishes but raises no
notification.  On the localStorage path the cache is spliced and published
first, then the store entry and index are rewritten. -/
def deleteNote (err : Option StorageErr) (s : NSState) (i : Int) : OpResult :=
  if s.cache.any (fun m => m.id = i) then
    if s.idbMigrationComplete then
      match err with
      | none =>
        { state := { s with idb := removeFirst i s.idb,
                            cache := removeFirst i s.cache },
          trace := [Ev.backendWrite, Ev.cacheUpdate, Ev.publish],
          notifs := [] }
      | some _ =>
        { state := { s with cache := removeFirst i s.cache },
          trace := [Ev.backendWrite, Ev.cacheUpdate, Ev.publish],
          notifs := [] }
    else
      { state := { s with cache := removeFirst i s.cache,
                          store := deleteLocal err s.store i },
        trace := [Ev.cacheUpdate, Ev.publish, Ev.backendWrite],
        notifs := [] }
  else
    { state := s, trace := [], notifs := [] }

/-- `IndexedDBService.loadAllNotes`: read the whole `notes` table and sort it
newest-first by `createdAt`; this is the read path behind `readAll`. -/
def idbLoadAllNotes (table : List Note) : List Note := sortNotesDesc table

/-- The localStorage path of `NotesService.loadAllNotes`: read the id index,
load each per-note entry that exists (ids whose entry is missing are silently
skipped), and sort the result newest-first. -/
def loadAllNotesLocal (st : LocalStore) : List Note :=
  sortNotesDesc (st.ids.filterMap (fun i =>
    (st.entries.find? (fun p => p.1 = i)).map (fun p => p.2)))

/-- A raw record parsed from the Legacy Flat Store blob (`bluejournal_notes`):
every field except the id and the timestamp may be absent. -/
structure RawNote where
  id : Int
  title : Option String
  content : Option String
  categories : Option (List String)
  category : Option String
  image : Option String
  images : Option (List String)
  createdAt : Int
deriving Repr, DecidableEq

/-- JavaScript truthiness of an optional string: absent and the empty string
are falsy. -/
def truthyStr : Option String → Bool
  | none => false
  | some s => !(s == "")

/-- The per-note normalization in `NotesService.migrateNotes`
(src/unnamed/part_007 lines 189-200): `title`/`content` default to the empty
string, `categories` falls back to `[category]` when absent and `category` is
truthy (an array, even empty, is truthy and kept as-is), `images` likewise
falls back to `[image]`, the legacy single fields are kept for backward
compatibility, and `createdAt` is rehydrated to a date. -/
def migrateOldNote (r : RawNote) : Note :=
  { id := r.id,
    title := r.title.getD "",
    content := r.content.getD "",
    categories := some (match r.categories with
      | some cs => cs
      | none => match r.category with
        | some c => if c = "" then [] else [c]
        | none => []),
    category := r.category,
    image := r.image,
    images := some (match r.images with
      | some is => is
      | none => match r.image with
        | some im => if im = "" then [] else [im]
        | none => []),
    createdAt := r.createdAt }

/-- The per-note mapping in the fallback read path
`NotesService.loadFromOldFormat` (src/unnamed/part_007 lines 385-388): a
spread of the raw object with only `createdAt` rehydrated — every other field,
including the legacy `category`/`image` fields, is exposed exactly as stored,
with no normalization.  (The mandatory `title`/`content` slots are rendered
with their JS default for an absent value.) -/
def loadOldFormatNote (r : RawNote) : Note :=
  { id := r.id,
    title := r.title.getD "",
    content := r.content.getD "",
    categories := r.categories,
    category := r.category,
    image := r.image,
    images := r.images,
    createdAt := r.createdAt }

/-- A concrete note with the given id and creation timestamp, all other
fields defaulted. -/
def mkNote (i t : Int) : Note := ⟨i, "", "", none, none, none, none, t⟩

/-- C1: for every list of source records, if the bulk migration write
(`bulkReplace` / `migrateNotesFromLocalStorage`) fails at any point, the
Transactional Record Store keeps its pre-transaction contents (never
partially populated), the migration status ends `FAILED`, and the source
store data is untouched. -/
theorem bulkReplace_failure_rolls_back (s : MigState) (fail : Note → Bool)
    (h1 : s.status ≠ MigrationStatus.IN_PROGRESS)
    (h2 : s.status ≠ MigrationStatus.COMPLETED)
    (hav : s.idbAvailable = true)
    (hfail : s.localNotes.any fail = true) :
    (startMigration s fail).idbNotes = s.idbNotes ∧
    (startMigration s fail).status = MigrationStatus.FAILED ∧
    (startMigration s fail).localNotes = s.localNotes := by
  have hne : ¬ s.localNotes.length = 0 := by
    intro h0
    rw [List.length_eq_zero] at h0
    rw [h0] at hfail
    simp at hfail
  unfold startMigration
  rw [if_neg h1, if_neg h2, if_neg (by simp [hav]), if_neg hne]
  unfold migrateNotesFromLocalStorage
  rw [runBulkAdds_error _ _ hfail]
  exact ⟨rfl, rfl, rfl⟩

/-- Witness for C1 at a concrete failing migration. -/
theorem bulkReplace_failure_rolls_back_witness :
    (startMigration ⟨MigrationStatus.NOT_STARTED, [mkNote 1 5], [mkNote 9 9], true⟩
        (fun _ => true)).idbNotes = [mkNote 9 9] ∧
    (startMigration ⟨MigrationStatus.NOT_STARTED, [mkNote 1 5], [mkNote 9 9], true⟩
        (fun _ => true)).status = MigrationStatus.FAILED ∧
    (startMigration ⟨MigrationStatus.NOT_STARTED, [mkNote 1 5], [mkNote 9 9], true⟩
        (fun _ => true)).localNotes = [mkNote 1 5] :=
  bulkReplace_failure_rolls_back _ _ (by decide) (by decide) rfl (by decide)

/-- C2: if the bulk write to the Transactional Record Store raises an
exception, `startMigration` transitions the status to `FAILED` and returns
the failure to the caller (the promise resolves with `false`, distinguishable
from the success value `true`), not silently swallowed as a success. -/
theorem startMigration_failure_propagates (s : MigState) (fail : Note → Bool)
    (h1 : s.status ≠ MigrationStatus.IN_PROGRESS)
    (h2 : s.status ≠ MigrationStatus.COMPLETED)
    (hav : s.idbAvailable = true)
    (hfail : s.localNotes.any fail = true) :
    (startMigration s fail).status = MigrationStatus.FAILED ∧
    (startMigration s fail).returned = false := by
  have hne : ¬ s.localNotes.length = 0 := by
    intro h0
    rw [List.length_eq_zero] at h0
    rw [h0] at hfail
    simp at hfail
  unfold startMigration
  rw [if_neg h1, if_neg h2, if_neg (by simp [hav]), if_neg hne]
  unfold migrateNotesFromLocalStorage
  rw [runBulkAdds_error _ _ hfail]
  exact ⟨rfl, rfl⟩

/-- Witness for C2 at a concrete failing migration. -/
theorem startMigration_failure_propagates_witness :
    (startMigration ⟨MigrationStatus.FAILED, [mkNote 2 7], [], true⟩
        (fun n => n.id = 2)).status = MigrationStatus.FAILED ∧
    (startMigration ⟨MigrationStatus.FAILED, [mkNote 2 7], [], true⟩
        (fun n => n.id = 2)).returned = false :=
  startMigration_failure_propagates _ _ (by decide) (by decide) rfl (by decide)

/-- Counterexample to C3: calling `startMigration` while the status is
`SKIPPED` does not leave the status `SKIPPED` and does perform the migration —
at this concrete state (zero source notes, IndexedDB available) the status
ends `COMPLETED`. -/
theorem startMigration_from_skipped_migrates :
    (startMigration ⟨MigrationStatus.SKIPPED, [], [], true⟩ (fun _ => false)).status
        = MigrationStatus.COMPLETED ∧
    (startMigration ⟨MigrationStatus.SKIPPED, [], [], true⟩ (fun _ => false)).status
        ≠ MigrationStatus.SKIPPED := by decide

/-- C3 amended: `COMPLETED` is terminal for `startMigration` (no-op success);
the migration-needed predicate is false exactly under `COMPLETED` and
`SKIPPED`, so neither triggers an automatic migration; but an explicit
`startMigration` call while `SKIPPED` is not blocked — with the medium
available it proceeds and ends `COMPLETED` or `FAILED`; `resetMigrationStatus`
and `skipMigration` force `NOT_STARTED` and `SKIPPED` from any state. -/
theorem terminal_statuses_amended (s : MigState) (fail : Note → Bool) :
    (s.status = MigrationStatus.COMPLETED →
       startMigration s fail = ⟨true, s.status, s.localNotes, s.idbNotes, false⟩) ∧
    (isMigrationNeeded s = false ↔
       (s.status = MigrationStatus.COMPLETED ∨ s.status = MigrationStatus.SKIPPED)) ∧
    (s.status = MigrationStatus.SKIPPED → s.idbAvailable = true →
       (startMigration s fail).status = MigrationStatus.COMPLETED ∨
       (startMigration s fail).status = MigrationStatus.FAILED) ∧
    (resetMigrationStatus s).status = MigrationStatus.NOT_STARTED ∧
    (skipMigration s).status = MigrationStatus.SKIPPED := by
  refine ⟨?_, ?_, ?_, rfl, rfl⟩
  · intro hc
    unfold startMigration
    rw [if_neg (by rw [hc]; decide), if_pos hc]
  · cases s with
    | mk st ln idb av => cases st <;> simp [isMigrationNeeded]
  · intro hsk hav
    unfold startMigration
    rw [if_neg (by rw [hsk]; decide), if_neg (by rw [hsk]; decide),
        if_neg (by simp [hav])]
    by_cases hlen : s.localNotes.length = 0
    · rw [if_pos hlen]
      exact Or.inl rfl
    · rw [if_neg hlen]
      cases hmig : migrateNotesFromLocalStorage fail s.localNotes with
      | ok t => exact Or.inl rfl
      | error e => exact Or.inr rfl

/-- Witness for the amended C3 at concrete states: a `COMPLETED` state is
untouched by `startMigration`, and a `SKIPPED` state is migrated to
`COMPLETED` or `FAILED`. -/
theorem terminal_statuses_amended_witness :
    startMigration ⟨MigrationStatus.COMPLETED, [mkNote 1 5], [], true⟩ (fun _ => false)
        = ⟨true, MigrationStatus.COMPLETED, [mkNote 1 5], [], false⟩ ∧
    ((startMigration ⟨MigrationStatus.SKIPPED, [mkNote 1 5], [], true⟩
        (fun _ => false)).status = MigrationStatus.COMPLETED ∨
     (startMigration ⟨MigrationStatus.SKIPPED, [mkNote 1 5], [], true⟩
        (fun _ => false)).status = MigrationStatus.FAILED) :=
  ⟨(terminal_statuses_amended ⟨MigrationStatus.COMPLETED, [mkNote 1 5], [], true⟩
      (fun _ => false)).1 rfl,
   (terminal_statuses_amended ⟨MigrationStatus.SKIPPED, [mkNote 1 5], [], true⟩
      (fun _ => false)).2.2.1 rfl rfl⟩

/-- C4: `startMigration` is reentrant and idempotent under completion —
called while `IN_PROGRESS` it returns `false` immediately with no state
change; called while `COMPLETED` it returns `true` with no change to the
status or any stored data. -/
theorem startMigration_reentrant_idempotent (s : MigState) (fail : Note → Bool) :
    (s.status = MigrationStatus.IN_PROGRESS →
       startMigration s fail = ⟨false, s.status, s.localNotes, s.idbNotes, false⟩) ∧
    (s.status = MigrationStatus.COMPLETED →
       startMigration s fail = ⟨true, s.status, s.localNotes, s.idbNotes, false⟩) := by
  constructor
  · intro hp
    unfold startMigration
    rw [if_pos hp]
  · intro hc
    unfold startMigration
    rw [if_neg (by rw [hc]; decide), if_pos hc]

/-- Witness for C4 at concrete `IN_PROGRESS` and `COMPLETED` states. -/
theorem startMigration_reentrant_idempotent_witness :
    startMigration ⟨MigrationStatus.IN_PROGRESS, [mkNote 3 1], [mkNote 4 2], true⟩
        (fun _ => true)
      = ⟨false, MigrationStatus.IN_PROGRESS, [mkNote 3 1], [mkNote 4 2], false⟩ ∧
    startMigration ⟨MigrationStatus.COMPLETED, [mkNote 3 1], [mkNote 4 2], true⟩
        (fun _ => true)
      = ⟨true, MigrationStatus.COMPLETED, [mkNote 3 1], [mkNote 4 2], false⟩ :=
  ⟨(startMigration_reentrant_idempotent ⟨MigrationStatus.IN_PROGRESS,
      [mkNote 3 1], [mkNote 4 2], true⟩ (fun _ => true)).1 rfl,
   (startMigration_reentrant_idempotent ⟨MigrationStatus.COMPLETED,
      [mkNote 3 1], [mkNote 4 2], true⟩ (fun _ => true)).2 rfl⟩

/-- C5: if the authoritative source holds zero records when `startMigration`
runs (status not `IN_PROGRESS`, IndexedDB available), the status ends
`COMPLETED`, success is reported, and the bulk-write path is never invoked. -/
theorem startMigration_empty_source (s : MigState) (fail : Note → Bool)
    (h1 : s.status ≠ MigrationStatus.IN_PROGRESS)
    (hav : s.idbAvailable = true)
    (h0 : s.localNotes = []) :
    (startMigration s fail).status = MigrationStatus.COMPLETED ∧
    (startMigration s fail).returned = true ∧
    (startMigration s fail).bulkInvoked = false := by
  unfold startMigration
  rw [if_neg h1]
  by_cases hc : s.status = MigrationStatus.COMPLETED
  · rw [if_pos hc]
    exact ⟨hc, rfl, rfl⟩
  · rw [if_neg hc, if_neg (by simp [hav]), if_pos (by rw [h0]; rfl)]
    exact ⟨rfl, rfl, rfl⟩

/-- Witness for C5 at a concrete empty-source state. -/
theorem startMigration_empty_source_witness :
    (startMigration ⟨MigrationStatus.NOT_STARTED, [], [mkNote 8 3], true⟩
        (fun _ => true)).status = MigrationStatus.COMPLETED ∧
    (startMigration ⟨MigrationStatus.NOT_STARTED, [], [mkNote 8 3], true⟩
        (fun _ => true)).returned = true ∧
    (startMigration ⟨MigrationStatus.NOT_STARTED, [], [mkNote 8 3], true⟩
        (fun _ => true)).bulkInvoked = false :=
  startMigration_empty_source _ _ (by decide) rfl rfl

/-- Counterexample to C6: on the localStorage (Keyed Store) backend, a CRUD
call does not mutate the backend first — at this concrete state a failed
backend write still leaves the note in the cache (so the cache update was not
conditional on backend success), the store is unchanged, and the trace shows
the cache update and snapshot publish strictly before the backend write. -/
theorem crud_order_counterexample :
    (addNote 99 (some ⟨false⟩) ⟨false, [], [], ⟨[], []⟩⟩ (mkNote 1 10)).state.cache
        = [mkNote 1 10] ∧
    (addNote 99 (some ⟨false⟩) ⟨false, [], [], ⟨[], []⟩⟩ (mkNote 1 10)).state.store
        = ⟨[], []⟩ ∧
    (addNote 99 (some ⟨false⟩) ⟨false, [], [], ⟨[], []⟩⟩ (mkNote 1 10)).trace
        = [Ev.cacheUpdate, Ev.publish, Ev.backendWrite] := by decide

/-- C6 amended: only on the Transactional (IndexedDB) backend does every CRUD
call issue and await the backend write before the cache update and publish;
on the Keyed (localStorage) backend every CRUD call updates the in-memory
cache and publishes the snapshot first, issuing the backend write afterwards
without awaiting it. -/
theorem crud_write_order (now : Int) (err : Option StorageErr) (s : NSState)
    (n : Note) (hmem : s.cache.any (fun m => m.id = n.id) = true) :
    ((addNote now err s n).trace =
      if s.idbMigrationComplete then [Ev.backendWrite, Ev.cacheUpdate, Ev.publish]
      else [Ev.cacheUpdate, Ev.publish, Ev.backendWrite]) ∧
    ((updateNote err s n).trace =
      if s.idbMigrationComplete then [Ev.backendWrite, Ev.cacheUpdate, Ev.publish]
      else [Ev.cacheUpdate, Ev.publish, Ev.backendWrite]) ∧
    ((deleteNote err s n.id).trace =
      if s.idbMigrationComplete then [Ev.backendWrite, Ev.cacheUpdate, Ev.publish]
      else [Ev.cacheUpdate, Ev.publish, Ev.backendWrite]) := by
  cases hb : s.idbMigrationComplete <;> cases err <;>
    simp [addNote, updateNote, deleteNote, hmem, hb]

/-- Witness for the amended C6 at a concrete state on each backend. -/
theorem crud_write_order_witness :
    ((addNote 99 none ⟨true, [mkNote 1 10], [mkNote 1 10], ⟨[], []⟩⟩
        (mkNote 1 11)).trace = [Ev.backendWrite, Ev.cacheUpdate, Ev.publish]) ∧
    ((updateNote none ⟨false, [mkNote 1 10], [], ⟨[], []⟩⟩ (mkNote 1 11)).trace
        = [Ev.cacheUpdate, Ev.publish, Ev.backendWrite]) := by
  have h1 := crud_write_order 99 none ⟨true, [mkNote 1 10], [mkNote 1 10], ⟨[], []⟩⟩
      (mkNote 1 11) (by decide)
  have h2 := crud_write_order 99 none ⟨false, [mkNote 1 10], [], ⟨[], []⟩⟩
      (mkNote 1 11) (by decide)
  exact ⟨h1.1, h2.2.1⟩

/-- Counterexample to C7: a failed backend delete on the IndexedDB backend is
not surfaced — at this concrete state the backend row survives, the cache
change is applied anyway, but the notification list is empty. -/
theorem delete_failure_silent :
    (deleteNote (some ⟨true⟩) ⟨true, [mkNote 1 10], [mkNote 1 10], ⟨[], []⟩⟩
        1).notifs = [] ∧
    (deleteNote (some ⟨true⟩) ⟨true, [mkNote 1 10], [mkNote 1 10], ⟨[], []⟩⟩
        1).state.idb = [mkNote 1 10] ∧
    (deleteNote (some ⟨true⟩) ⟨true, [mkNote 1 10], [mkNote 1 10], ⟨[], []⟩⟩
        1).state.cache = [] := by decide

/-- C7 amended: on the IndexedDB backend (state `s`), failed `add` and
`update` calls fall back to the in-memory cache and surface exactly one
storage-error notification whose quota wording differs from the generic
wording, while a failed `delete` falls back to the in-memory cache silently;
on the localStorage backend (state `t`) a failed write raises no notification
— the cache was already updated before the write, and the store itself is
left unchanged. -/
theorem storage_failure_fallback (now : Int) (e : StorageErr) (s : NSState)
    (n : Note) (t : NSState) (hidb : s.idbMigrationComplete = true)
    (hmem : s.cache.any (fun m => m.id = n.id) = true)
    (hloc : t.idbMigrationComplete = false)
    (hmemt : t.cache.any (fun m => m.id = n.id) = true) :
    (addNote now (some e) s n).notifs = [handleStorageError e] ∧
    (addNote now (some e) s n).state.cache
        = (if n.id = 0 then { n with id := now } else n) :: s.cache ∧
    (addNote now (some e) s n).state.idb = s.idb ∧
    (updateNote (some e) s n).notifs = [handleStorageError e] ∧
    (updateNote (some e) s n).state.cache = replaceFirst n s.cache ∧
    (updateNote (some e) s n).state.idb = s.idb ∧
    (deleteNote (some e) s n.id).notifs = [] ∧
    (deleteNote (some e) s n.id).state.cache = removeFirst n.id s.cache ∧
    (addNote now (some e) t n).notifs = [] ∧
    (addNote now (some e) t n).state.cache
        = (if n.id = 0 then { n with id := now } else n) :: t.cache ∧
    (addNote now (some e) t n).state.store = t.store ∧
    (updateNote (some e) t n).notifs = [] ∧
    (updateNote (some e) t n).state.store = t.store ∧
    (deleteNote (some e) t n.id).notifs = [] ∧
    (deleteNote (some e) t n.id).state.store = t.store ∧
    handleStorageError ⟨true⟩ ≠ handleStorageError ⟨false⟩ := by
  refine ⟨?_, ?_, ?_, ?_, ?_, ?_, ?_, ?_, ?_, ?_, ?_, ?_, ?_, ?_, ?_, by decide⟩ <;>
    simp [addNote, updateNote, deleteNote, saveNote, deleteLocal,
      hidb, hmem, hloc, hmemt]

/-- Witness for the amended C7 at a concrete quota error on each backend. -/
theorem storage_failure_fallback_witness :
    (addNote 99 (some ⟨true⟩) ⟨true, [mkNote 1 10], [mkNote 1 10], ⟨[], []⟩⟩
        (mkNote 1 12)).notifs = [handleStorageError ⟨true⟩] ∧
    (updateNote (some ⟨true⟩) ⟨true, [mkNote 1 10], [mkNote 1 10], ⟨[], []⟩⟩
        (mkNote 1 12)).notifs = [handleStorageError ⟨true⟩] ∧
    (deleteNote (some ⟨true⟩) ⟨true, [mkNote 1 10], [mkNote 1 10], ⟨[], []⟩⟩
        1).notifs = [] ∧
    (addNote 99 (some ⟨true⟩) ⟨false, [mkNote 1 10], [], ⟨[(1, mkNote 1 10)], [1]⟩⟩
        (mkNote 1 12)).notifs = [] ∧
    (updateNote (some ⟨true⟩) ⟨false, [mkNote 1 10], [], ⟨[(1, mkNote 1 10)], [1]⟩⟩
        (mkNote 1 12)).notifs = [] ∧
    (updateNote (some ⟨true⟩) ⟨false, [mkNote 1 10], [], ⟨[(1, mkNote 1 10)], [1]⟩⟩
        (mkNote 1 12)).state.store = ⟨[(1, mkNote 1 10)], [1]⟩ ∧
    (deleteNote (some ⟨true⟩) ⟨false, [mkNote 1 10], [], ⟨[(1, mkNote 1 10)], [1]⟩⟩
        1).notifs = [] := by
  have ha := storage_failure_fallback 99 ⟨true⟩
      ⟨true, [mkNote 1 10], [mkNote 1 10], ⟨[], []⟩⟩ (mkNote 1 12)
      ⟨false, [mkNote 1 10], [], ⟨[(1, mkNote 1 10)], [1]⟩⟩
      rfl (by decide) rfl (by decide)
  obtain ⟨h1, h2, h3, h4, h5, h6, h7, h8, h9, h10, h11, h12, h13, h14, h15, h16⟩ := ha
  exact ⟨h1, h4, h7, h9, h12, h13, h14⟩

/-- A legacy-format record holding only the single `category` and `image`
fields (no `categories`/`images` lists). -/
def legacyRawNote : RawNote := ⟨1, some "A", some "", none, some "work", some "img", none, 0⟩

/-- C8 (code bug): the fallback read path `loadFromOldFormat` does not apply
the legacy normalization — a record holding only the single `category` field
is exposed with no category list at all (and likewise for `image`), whereas
the same record read through `migrateNotes` is exposed with the one-element
lists, so the two legacy read paths produce divergent in-memory shapes. -/
theorem loadFromOldFormat_skips_normalization :
    (loadOldFormatNote legacyRawNote).categories = none ∧
    (loadOldFormatNote legacyRawNote).images = none ∧
    (migrateOldNote legacyRawNote).categories = some ["work"] ∧
    (migrateOldNote legacyRawNote).images = some ["img"] := by decide

/-- `removeFirst` only drops elements. -/
theorem removeFirst_sublist (i : Int) (l : List Note) :
    (removeFirst i l).Sublist l := by
  induction l with
  | nil => simp [removeFirst]
  | cons m ms ih =>
    unfold removeFirst
    by_cases h : m.id = i
    · simp [h]
    · simpa [h] using ih.cons₂ m

/-- `removeFirst` preserves a newest-first cache. -/
theorem removeFirst_pairwise (i : Int) (l : List Note) (h : l.Pairwise NoteGe) :
    (removeFirst i l).Pairwise NoteGe := by
  induction l with
  | nil => simp [removeFirst]
  | cons m ms ih =>
    rcases List.pairwise_cons.mp h with ⟨hm, hms⟩
    unfold removeFirst
    by_cases hid : m.id = i
    · simpa [hid] using hms
    · rw [if_neg hid]
      refine List.Pairwise.cons ?_ (ih hms)
      intro b hb
      exact hm b ((removeFirst_sublist i ms).subset hb)

/-- Counterexample to C9: adding a record whose creation timestamp is older
than a cached record leaves the published snapshot out of newest-first order —
`addNote` unshifts unconditionally and never re-sorts. -/
theorem snapshot_order_counterexample :
    (addNote 99 none ⟨false, [mkNote 1 10], [], ⟨[], []⟩⟩ (mkNote 2 5)).state.cache
        = [mkNote 2 5, mkNote 1 10] ∧
    ¬ ((addNote 99 none ⟨false, [mkNote 1 10], [], ⟨[], []⟩⟩
        (mkNote 2 5)).state.cache.Pairwise NoteGe) := by decide

/-- C9 amended: the Transactional Record Store read path and the localStorage
load path both return records sorted newest-first, and `deleteNote` preserves
a sorted cache; `addNote` prepends the new record, so it preserves the
newest-first order exactly when the new record carries a maximal creation
timestamp (as with a freshly created note) — an add with an older timestamp
breaks the order until the next full load, since no CRUD path re-sorts. -/
theorem snapshots_sorted (table : List Note) (st : LocalStore) (now : Int)
    (err : Option StorageErr) (s : NSState) (n : Note) (i : Int)
    (hsort : s.cache.Pairwise NoteGe)
    (hmax : ∀ m ∈ s.cache, m.createdAt ≤ n.createdAt) :
    (idbLoadAllNotes table).Pairwise NoteGe ∧
    (loadAllNotesLocal st).Pairwise NoteGe ∧
    ((addNote now err s n).state.cache).Pairwise NoteGe ∧
    ((deleteNote err s i).state.cache).Pairwise NoteGe := by
  refine ⟨sorted_sortNotesDesc _, sorted_sortNotesDesc _, ?_, ?_⟩
  · have hcons : ((if n.id = 0 then { n with id := now } else n) :: s.cache).Pairwise NoteGe := by
      refine List.Pairwise.cons ?_ hsort
      intro b hb
      have : b.createdAt ≤ n.createdAt := hmax b hb
      by_cases h0 : n.id = 0 <;> simp [NoteGe, h0, this]
    cases hb : s.idbMigrationComplete <;> cases err <;>
      simpa [addNote, hb] using hcons
  · have hrem : (removeFirst i s.cache).Pairwise NoteGe :=
      removeFirst_pairwise i s.cache hsort
    by_cases hmem : s.cache.any (fun m => m.id = i) = true
    · cases hb : s.idbMigrationComplete <;> cases err <;>
        simpa [deleteNote, hb, hmem] using hrem
    · simpa [deleteNote, hmem] using hsort

/-- Witness for the amended C9 at concrete inputs. -/
theorem snapshots_sorted_witness :
    (idbLoadAllNotes [mkNote 1 5, mkNote 2 10]).Pairwise NoteGe ∧
    (loadAllNotesLocal ⟨[(1, mkNote 1 5)], [1, 2]⟩).Pairwise NoteGe ∧
    ((addNote 99 none ⟨false, [mkNote 1 10], [], ⟨[], []⟩⟩
        (mkNote 2 11)).state.cache).Pairwise NoteGe ∧
    ((deleteNote none ⟨false, [mkNote 1 10], [], ⟨[], []⟩⟩
        1).state.cache).Pairwise NoteGe :=
  snapshots_sorted [mkNote 1 5, mkNote 2 10] ⟨[(1, mkNote 1 5)], [1, 2]⟩ 99 none
    ⟨false, [mkNote 1 10], [], ⟨[], []⟩⟩ (mkNote 2 11) 1 (by decide) (by decide)

/-- C10: updating a record whose identifier matches no cached record is a
complete no-op — the state (backend and cache) is unchanged, no event is
emitted (in particular no backend write), and no notification is raised. -/
theorem updateNote_unknown_id_noop (err : Option StorageErr) (s : NSState)
    (n : Note) (h : s.cache.any (fun m => m.id = n.id) = false) :
    updateNote err s n = ⟨s, [], []⟩ := by
  simp [updateNote, h]

/-- Witness for C10 at a concrete state. -/
theorem updateNote_unknown_id_noop_witness :
    updateNote (some ⟨false⟩) ⟨false, [mkNote 1 10], [], ⟨[], []⟩⟩ (mkNote 2 5)
      = ⟨⟨false, [mkNote 1 10], [], ⟨[], []⟩⟩, [], []⟩ :=
  updateNote_unknown_id_noop (some ⟨false⟩) ⟨false, [mkNote 1 10], [], ⟨[], []⟩⟩
    (mkNote 2 5) (by decide)
